import Mathlib

/-!
Verification development for the gesture-store orchestration layer of
Microsoft/pxt-gestures (src/app/src/gesture-store.ts).

The store is embedded shallowly: the observable fields of the
GestureStore class become fields of a Lean structure, every method
becomes a pure state-transition function, and JavaScript array
operations (push, shift, slice, splice, indexOf, findIndex) are
translated by small helper functions that reproduce their semantics,
including the negative-index behaviour of splice and the minus-one
result of indexOf.  Methods that would throw a TypeError (an
out-of-range element access followed by a member access) return none.

Types that gesture-store.ts imports from sibling modules that are not
part of the analysed sources (motion.ts, model.ts) are modelled from
the specification; each such definition carries a doc comment that
starts with the words Modelled from the spec.
-/

namespace PxtGestures

/-- JavaScript Array.prototype.indexOf: first index of the element, or -1. -/
def jsIndexOf [DecidableEq α] (x : α) : List α → Int
  | [] => -1
  | a :: as =>
    if a = x then 0
    else
      let r := jsIndexOf x as
      if r < 0 then -1 else r + 1

/-- JavaScript Array.prototype.findIndex: first index satisfying the predicate, or -1. -/
def jsFindIndex (p : α → Bool) : List α → Int
  | [] => -1
  | a :: as =>
    if p a then 0
    else
      let r := jsFindIndex p as
      if r < 0 then -1 else r + 1

/-- JavaScript indexed read l[i]: none when the index is out of range
(the value would be undefined). -/
def jsGet (l : List α) (i : Int) : Option α :=
  if i < 0 then none else l.get? i.toNat

/-- JavaScript indexed write l[i] = a for an index known to be in range;
a negative index leaves the list unchanged (the write would create a
non-element property). -/
def jsSet (l : List α) (i : Int) (a : α) : List α :=
  if i < 0 then l else l.set i.toNat a

/-- JavaScript Array.prototype.splice(start, 1): removes one element at
start, where a negative start counts from the end (clamped at 0) and a
start at or beyond the length removes nothing. -/
def spliceRemove (l : List α) (start : Int) : List α :=
  let st : Nat := if start < 0 then ((l.length : Int) + start).toNat else start.toNat
  l.take st ++ l.drop (st + 1)

/-- JavaScript object-map lookup this.idToType[id]. -/
def mapLookup (m : List (String × String)) (k : String) : Option String :=
  (m.find? (fun p => p.1 == k)).map (fun p => p.2)

/-- JavaScript delete this.idToType[id]. -/
def mapErase (m : List (String × String)) (k : String) : List (String × String) :=
  m.filter (fun p => !(p.1 == k))

/-- JavaScript object-map assignment this.idToType[id] = action. -/
def mapSet (m : List (String × String)) (k : String) (v : String) : List (String × String) :=
  mapErase m k ++ [(k, v)]

/-- Modelled from the spec: MotionReading (motion.ts, not in the analysed
sources) is an x, y, z numeric triple; gesture-store.ts reads the fields
accelX, accelY, accelZ.  Numbers are modelled as rationals. -/
structure MotionReading where
  accelX : ℚ
  accelY : ℚ
  accelZ : ℚ
deriving DecidableEq

/-- Modelled from the spec: GestureExampleData (motion.ts, not in the
analysed sources) is one recorded training example, an ordered sequence
of readings. -/
structure GestureExampleData where
  rawData : List MotionReading
deriving DecidableEq

/-- Modelled from the spec: Gesture (motion.ts, not in the analysed
sources) carries an id, a name, the ordered sample list (newest first)
and a derived display prototype.  gesture-store.ts reads and writes the
fields gestureID, name, samples, displayGesture and calls
getCroppedData. -/
structure Gesture where
  gestureID : Nat
  name : String
  samples : List GestureExampleData
  displayGesture : Option GestureExampleData
deriving DecidableEq

/-- Modelled from the spec: getCroppedData returns the gesture's cropped
training data; cropping itself is opaque, so it is modelled as the
sample list. -/
def Gesture.getCroppedData (g : Gesture) : List GestureExampleData :=
  g.samples

/-- Modelled from the spec: Match (motion.ts, not in the analysed
sources) is an inclusive tick interval; gesture-store.ts reads the
fields startTime and endTime. -/
structure Match where
  startTime : Int
  endTime : Int
deriving DecidableEq

/-- Modelled from the spec: SingleDTWCore (model.ts, not in the analysed
sources) is the opaque per-gesture matcher; the fields record the
constructor arguments, the training data and tick passed to update, and
the opaque running state.  The recognition algorithm itself is not
modelled. -/
structure SingleDTWCore where
  seedId : Nat
  seedName : String
  trainingData : List GestureExampleData
  tick : Int
  running : Bool
deriving DecidableEq

/-- Modelled from the spec: the matcher constructor new SingleDTWCore(id, name). -/
def SingleDTWCore.new (id : Nat) (name : String) : SingleDTWCore :=
  { seedId := id, seedName := name, trainingData := [], tick := 0, running := false }

/-- Modelled from the spec: update(trainingData, tick) resynchronises the
matcher with the given cropped training data and tick. -/
def SingleDTWCore.update (m : SingleDTWCore) (data : List GestureExampleData) (t : Int) : SingleDTWCore :=
  { m with trainingData := data, tick := t }

/-- Modelled from the spec: the prototype accessor yields a display value
derived from the matcher's current training data; the derivation is
opaque and is modelled as the head of the training data. -/
def SingleDTWCore.prototype (m : SingleDTWCore) : Option GestureExampleData :=
  m.trainingData.head?

/-- READING_HISTORY_LIMIT. -/
def readingHistoryLimit : Nat := 30

/-- The alpha constant of createLowPassFilter. -/
def alpha : ℚ := 1 / 2

/-- One step of the low-pass filter returned by createLowPassFilter:
smoothed = alpha * value + (1 - alpha) * previousSmoothed. -/
def lowPass (previousSmoothed value : ℚ) : ℚ :=
  alpha * value + (1 - alpha) * previousSmoothed

/-- The possible outcomes of the json argument of loadBlocks, as the code
distinguishes them: an absent or empty string (falsy, first early
return), a string that JSON.parse maps to null (falsy parse result,
second early return), or a string parsing to an array of gesture
records.  Note that an empty array is truthy in JavaScript and
therefore does not take the second early return. -/
inductive JsonArg
  | absent
  | nullJson
  | records (l : List Gesture)
deriving DecidableEq

/-- Modelled from the spec: Gesture.parseGesture (motion.ts, not in the
analysed sources) revalidates one serialized record; the spec's
round-trip property says id, name and per-sample reading sequences are
preserved exactly, so it is modelled as the identity on those fields. -/
def parseGesture (g : Gesture) : Gesture :=
  { gestureID := g.gestureID, name := g.name, samples := g.samples,
    displayGesture := g.displayGesture }

/-- The observable and private state of the GestureStore class.
timer is the deadline of the pending debounce timeout of saveBlocks
(none when no flush is scheduled), outbox is the sequence of actions
emitted through sendRequest, and prevX, prevY, prevZ are the
previousSmoothed values of the three per-axis low-pass filters created
in the constructor. -/
structure Store where
  gestures : List Gesture
  connected : Bool
  hasBeenModified : Bool
  readings : List MotionReading
  latestTimestamp : Int
  -- the source field is named matches, which Lean reserves as term syntax
  recordedMatches : List Match
  models : List SingleDTWCore
  idToType : List (String × String)
  curGestureIndex : Int
  prevX : ℚ
  prevY : ℚ
  prevZ : ℚ
  timer : Option Int
  outbox : List String
deriving DecidableEq

/-- sendRequest(action): records the fresh correlation id against the
action and emits the envelope; the fresh id (Math.random in the source)
is passed as a parameter. -/
def sendRequest (s : Store) (fresh : String) (act : String) : Store :=
  { s with idToType := mapSet s.idToType fresh act, outbox := s.outbox ++ [act] }

/-- The state right after the constructor ran: empty catalog, empty
buffer, and one extinit request already sent with correlation id id0. -/
def initStore (id0 : String) : Store :=
  sendRequest
    { gestures := [], connected := false, hasBeenModified := false,
      readings := [], latestTimestamp := 0, recordedMatches := [], models := [],
      idToType := [], curGestureIndex := 0, prevX := 0, prevY := 0, prevZ := 0,
      timer := none, outbox := [] }
    id0 "extinit"

/-- markDirty(): on the first call after a flush it sets the flag and
invokes the debounced saveBlocks, whose wrapper clears any earlier
timeout and schedules a new one 2000ms from now; when the flag is
already set it does nothing. -/
def Store.markDirty (s : Store) (now : Int) : Store :=
  if s.hasBeenModified then s
  else { s with hasBeenModified := true, timer := some (now + 2000) }

/-- saveBlocksNow(): no-op unless dirty; otherwise it generates the code
and json payload (whose contents no modelled observation depends on),
sends one extwritecode request and clears the dirty flag.  The final
reassignment this.gestures = cloneData writes back the unmodified
slice and is value-level identity. -/
def Store.saveBlocksNow (s : Store) (fresh : String) : Store :=
  if s.hasBeenModified then
    let s1 := sendRequest s fresh "extwritecode"
    { s1 with hasBeenModified := false }
  else s

/-- The pending debounce timeout firing: the wrapper nulls the handle and
runs saveBlocksNow; with no pending timeout nothing happens. -/
def Store.fireTimer (s : Store) (fresh : String) : Store :=
  match s.timer with
  | none => s
  | some _ => Store.saveBlocksNow { s with timer := none } fresh

/-- Modelled from the spec: the id that new Gesture() (motion.ts, not in
the analysed sources) assigns; the spec states id = (max existing id)
+ 1, or 1 if the catalog is empty. -/
def maxGestureId (l : List Gesture) : Nat :=
  l.foldr (fun g acc => max g.gestureID acc) 0

/-- Modelled from the spec: the gesture value produced by new Gesture();
the initial name is left unspecified by the spec and modelled as the
empty string, with no samples and no display prototype. -/
def newGesture (l : List Gesture) : Gesture :=
  { gestureID := maxGestureId l + 1, name := "", samples := [], displayGesture := none }

/-- addGesture(): pushes a new gesture, makes it current, and pushes a
new SingleDTWCore constructed with (gestureID + 1, name). -/
def Store.addGesture (s : Store) : Store :=
  let g := newGesture s.gestures
  let gestures1 := s.gestures ++ [g]
  let cur : Int := (gestures1.length : Int) - 1
  let model := SingleDTWCore.new (g.gestureID + 1) g.name
  { s with gestures := gestures1, curGestureIndex := cur, models := s.models ++ [model] }

/-- deleteGesture(gesture): if the gesture is found, splices it out of
both arrays at the same index and marks dirty; otherwise does nothing. -/
def Store.deleteGesture (s : Store) (now : Int) (g : Gesture) : Store :=
  let index := jsIndexOf g s.gestures
  if 0 ≤ index then
    Store.markDirty
      { s with gestures := spliceRemove s.gestures index,
               models := spliceRemove s.models index } now
  else s

/-- deleteIfGestureEmpty(): when the catalog is non-empty and the current
gesture has no samples, removes the current gesture and model; reading
this.gestures[this.curGestureIndex].samples throws when the index is
out of range, which is returned as none. -/
def Store.deleteIfGestureEmpty (s : Store) : Option Store :=
  if 0 < s.gestures.length then
    match jsGet s.gestures s.curGestureIndex with
    | none => none
    | some g =>
      if g.samples.length = 0 then
        some { s with gestures := spliceRemove s.gestures s.curGestureIndex,
                      models := spliceRemove s.models s.curGestureIndex }
      else some s
  else some s

/-- loadBlocks(code, json): returns early on a falsy json string or a
falsy parse result; otherwise wholesale-replaces the gesture array with
the parsed records and rebuilds the model array from scratch, priming
each model with the gesture's cropped data and the current tick.  The
code argument is unused by the source method. -/
def Store.loadBlocks (s : Store) (code : String) (json : JsonArg) : Store :=
  match json with
  | .absent => s
  | .nullJson => s
  | .records l =>
    let gestures1 := l.map parseGesture
    let models1 := gestures1.map (fun g =>
      SingleDTWCore.update (SingleDTWCore.new (g.gestureID + 1) g.name)
        (Gesture.getCroppedData g) s.latestTimestamp)
    { s with gestures := gestures1, models := models1 }

/-- addSample(gesture, newSample): slices the catalog, front-inserts the
sample into the edited gesture, updates the matcher of the currently
selected gesture (gestureStore.currentModel, indexed by
curGestureIndex) with the edited gesture's cropped data, copies that
matcher's prototype into the edited gesture's displayGesture, publishes
the clone and marks dirty.  A missing gesture (indexOf -1) or an
out-of-range curGestureIndex makes the source throw on a member access
of undefined, returned here as none.  Element aliasing between the old
and new array is modelled only in RefStore below; this value-level
version records the published post-state. -/
def Store.addSample (s : Store) (now : Int) (g : Gesture) (newSample : GestureExampleData) : Option Store :=
  let gestureIndex := jsIndexOf g s.gestures
  match jsGet s.gestures gestureIndex with
  | none => none
  | some g0 =>
    let g1 := { g0 with samples := newSample :: g0.samples }
    let gestures1 := jsSet s.gestures gestureIndex g1
    match jsGet s.models s.curGestureIndex with
    | none => none
    | some m =>
      let m1 := SingleDTWCore.update m (Gesture.getCroppedData g1) s.latestTimestamp
      let models1 := jsSet s.models s.curGestureIndex m1
      let g2 := { g1 with displayGesture := SingleDTWCore.prototype m1 }
      some (Store.markDirty { s with gestures := jsSet gestures1 gestureIndex g2,
                                     models := models1 } now)

/-- deleteSample(gesture, sample): slices the catalog, splices the sample
out of the edited gesture (a missing sample gives indexOf -1, which
splice(-1, 1) turns into removing the last sample), updates the matcher
at the edited gesture's index with the new cropped data, copies its
prototype into displayGesture, publishes and marks dirty.  A missing
gesture or a missing model at that index throws in the source,
returned here as none. -/
def Store.deleteSample (s : Store) (now : Int) (g : Gesture) (sample : GestureExampleData) : Option Store :=
  let gi := jsIndexOf g s.gestures
  match jsGet s.gestures gi with
  | none => none
  | some g0 =>
    let si := jsIndexOf sample g0.samples
    let g1 := { g0 with samples := spliceRemove g0.samples si }
    let gestures1 := jsSet s.gestures gi g1
    match jsGet s.models gi with
    | none => none
    | some m =>
      let m1 := SingleDTWCore.update m (Gesture.getCroppedData g1) s.latestTimestamp
      let models1 := jsSet s.models gi m1
      let g2 := { g1 with displayGesture := SingleDTWCore.prototype m1 }
      some (Store.markDirty { s with gestures := jsSet gestures1 gi g2,
                                     models := models1 } now)

/-- The serialData.register handler installed by the constructor: runs
each raw frame through the three per-axis low-pass filters, pushes the
conditioned reading, increments the tick, shifts the oldest reading
once the buffer exceeds READING_HISTORY_LIMIT, and, when the current
model exists and reports running, feeds it the raw vector and appends
any returned match.  feed belongs to the opaque recognizer (model.ts,
not in the analysed sources); its optional Match result is supplied as
the feedResult parameter and its internal state change is not
modelled. -/
def Store.serialFrame (s : Store) (raw : MotionReading) (feedResult : Option Match) : Store :=
  let ax := lowPass s.prevX raw.accelX
  let ay := lowPass s.prevY raw.accelY
  let az := lowPass s.prevZ raw.accelZ
  let rs1 := s.readings ++ [MotionReading.mk ax ay az]
  let rs2 := if readingHistoryLimit < rs1.length then rs1.drop 1 else rs1
  let newMatches :=
    match jsGet s.models s.curGestureIndex with
    | some m =>
      if m.running then
        match feedResult with
        | some mt => s.recordedMatches ++ [mt]
        | none => s.recordedMatches
      else s.recordedMatches
    | none => s.recordedMatches
  { s with readings := rs2, latestTimestamp := s.latestTimestamp + 1,
           prevX := ax, prevY := ay, prevZ := az, recordedMatches := newMatches }

/-- Feeding a whole sequence of frames, each paired with the opaque feed
result of the recognizer for that frame. -/
def Store.feedAll (s : Store) : List (MotionReading × Option Match) → Store
  | [] => s
  | f :: fs => Store.feedAll (Store.serialFrame s f.1 f.2) fs

/-- The conditioned reading sequence that the three filters produce for a
raw frame sequence, threading the previousSmoothed state of each axis. -/
def conditionAll (px py pz : ℚ) : List MotionReading → List MotionReading
  | [] => []
  | r :: rs =>
    let cx := lowPass px r.accelX
    let cy := lowPass py r.accelY
    let cz := lowPass pz r.accelZ
    MotionReading.mk cx cy cz :: conditionAll cx cy cz rs

/-- The absolute tick that isMatch associates with a buffer position:
time = latestTimestamp - (readings.length - 1 - readingIndex). -/
def Store.tickAt (s : Store) (readingIndex : Int) : Int :=
  s.latestTimestamp - ((s.readings.length : Int) - 1 - readingIndex)

/-- isMatch(readingIndex): true when findIndex over the recorded matches,
with the predicate startTime <= time && time <= endTime, returns a
non-negative index. -/
def Store.isMatch (s : Store) (readingIndex : Int) : Bool :=
  let time := Store.tickAt s readingIndex
  0 ≤ jsFindIndex (fun m => decide (m.startTime ≤ time ∧ time ≤ m.endTime)) s.recordedMatches

/-- The inbound host messages that receiveMessage distinguishes.  An
extconsole event carries the sim-origin flag and the acceleration
triple that parseString extracts from the payload, when one is present
(the tokenizer's string-level details are not needed by any claim); the
opaque feed result for that frame rides along as in serialFrame.  A
response carries the correlation id and the extreadcode body. -/
inductive InMsg
  | extconsole (sim : Bool) (frame : Option MotionReading) (feedResult : Option Match)
  | extshown
  | exthidden
  | otherEvent
  | response (id : String) (code : String) (json : JsonArg)
deriving DecidableEq

/-- The pending action that a message is dispatched on: for a response it
is the looked-up idToType entry (const action = this.idToType[data.id]);
events are dispatched by name, not by correlation id. -/
def Store.dispatchedAction (s : Store) : InMsg → Option String
  | .response id _ _ => mapLookup s.idToType id
  | _ => none

/-- receiveMessage(data): events are dispatched by name (extconsole drops
simulator data, otherwise parses and maybe ingests a frame and marks
connected; extshown marks connected and requests the data stream and a
code read; exthidden marks disconnected); a response looks up and
deletes the pending id-to-action entry and dispatches on the recorded
action (extinit requests the data stream and a code read, extreadcode
hydrates via loadBlocks, anything else - including a missing entry -
does nothing).  fresh1 and fresh2 supply the correlation ids of any
requests the dispatch sends. -/
def Store.receiveMessage (s : Store) (m : InMsg) (fresh1 fresh2 : String) : Store :=
  match m with
  | .extconsole sim frame feedResult =>
    if sim then s
    else
      let s1 := match frame with
        | some v => Store.serialFrame s v feedResult
        | none => s
      { s1 with connected := true }
  | .extshown =>
    let s1 := { s with connected := true }
    sendRequest (sendRequest s1 fresh1 "extdatastream") fresh2 "extreadcode"
  | .exthidden => { s with connected := false }
  | .otherEvent => s
  | .response id code json =>
    let act := mapLookup s.idToType id
    let s1 := { s with idToType := mapErase s.idToType id }
    match act with
    | some a =>
      if a = "extinit" then
        sendRequest (sendRequest s1 fresh1 "extdatastream") fresh2 "extreadcode"
      else if a = "extreadcode" then Store.loadBlocks s1 code json
      else s1
    | none => s1

/-!
RefStore: a refinement of the catalog mutations that tracks JavaScript
object identity, needed to settle whether an operation mutates the
published gesture array in place or publishes a fresh copy.  Array
objects live in arrHeap (their contents are gesture references) and
gesture objects live in gestureHeap; published is the reference held by
this.gestures.  slice() allocates a fresh array object with the same
gesture references; push and splice on this.gestures mutate the array
object in place at its existing reference.
-/

/-- Heap-level state of the store restricted to the pieces the catalog
mutations touch. -/
structure RefStore where
  arrHeap : List (List Nat)
  gestureHeap : List Gesture
  published : Nat
  models : List SingleDTWCore
  curGestureIndex : Int
  latestTimestamp : Int
  hasBeenModified : Bool
  timer : Option Int
deriving DecidableEq

/-- The contents of the published array object (the gesture references
this.gestures currently holds). -/
def RefStore.publishedContents (s : RefStore) : List Nat :=
  s.arrHeap.getD s.published []

/-- The default gesture value used for a dangling dereference. -/
def defaultGesture : Gesture :=
  { gestureID := 0, name := "", samples := [], displayGesture := none }

/-- Dereference a gesture object. -/
def RefStore.gestureAt (s : RefStore) (r : Nat) : Gesture :=
  s.gestureHeap.getD r defaultGesture

/-- markDirty at the heap level (same logic as Store.markDirty). -/
def RefStore.markDirty (s : RefStore) (now : Int) : RefStore :=
  if s.hasBeenModified then s
  else { s with hasBeenModified := true, timer := some (now + 2000) }

/-- addGesture at the heap level: this.gestures.push(new Gesture())
mutates the published array object in place; a fresh gesture object is
allocated; no new array object is created. -/
def RefStore.addGesture (s : RefStore) : RefStore :=
  let contents := RefStore.publishedContents s
  let g := newGesture (contents.map (RefStore.gestureAt s))
  let gref := s.gestureHeap.length
  let contents1 := contents ++ [gref]
  let model := SingleDTWCore.new (g.gestureID + 1) g.name
  { s with arrHeap := s.arrHeap.set s.published contents1,
           gestureHeap := s.gestureHeap ++ [g],
           curGestureIndex := (contents1.length : Int) - 1,
           models := s.models ++ [model] }

/-- deleteGesture at the heap level: the argument is a gesture reference
(indexOf compares object identity); when found, this.gestures.splice
mutates the published array object in place and the model array is
spliced; no new array object is created. -/
def RefStore.deleteGesture (s : RefStore) (now : Int) (gref : Nat) : RefStore :=
  let contents := RefStore.publishedContents s
  let index := jsIndexOf gref contents
  if 0 ≤ index then
    RefStore.markDirty
      { s with arrHeap := s.arrHeap.set s.published (spliceRemove contents index),
               models := spliceRemove s.models index } now
  else s

/-- addSample at the heap level: slice() allocates a fresh array object
holding the same gesture references; the edited gesture object is
mutated through that shared reference; this.gestures is then swapped to
the fresh array object.  none when the source would throw. -/
def RefStore.addSample (s : RefStore) (now : Int) (gref : Nat) (newSample : GestureExampleData) : Option RefStore :=
  let contents := RefStore.publishedContents s
  let cloneRef := s.arrHeap.length
  let s1 := { s with arrHeap := s.arrHeap ++ [contents] }
  let gestureIndex := jsIndexOf gref contents
  match jsGet contents gestureIndex with
  | none => none
  | some r =>
    let g0 := RefStore.gestureAt s1 r
    let g1 := { g0 with samples := newSample :: g0.samples }
    let s2 := { s1 with gestureHeap := s1.gestureHeap.set r g1 }
    match jsGet s2.models s2.curGestureIndex with
    | none => none
    | some m =>
      let m1 := SingleDTWCore.update m (Gesture.getCroppedData g1) s2.latestTimestamp
      let models1 := jsSet s2.models s2.curGestureIndex m1
      let g2 := { g1 with displayGesture := SingleDTWCore.prototype m1 }
      let s3 := { s2 with gestureHeap := s2.gestureHeap.set r g2, models := models1 }
      some (RefStore.markDirty { s3 with published := cloneRef } now)

/-- deleteSample at the heap level: same shape as addSample, removing the
sample (splice(-1, 1) removes the last sample when indexOf misses) and
updating the model at the edited gesture's index. -/
def RefStore.deleteSample (s : RefStore) (now : Int) (gref : Nat) (sample : GestureExampleData) : Option RefStore :=
  let contents := RefStore.publishedContents s
  let cloneRef := s.arrHeap.length
  let s1 := { s with arrHeap := s.arrHeap ++ [contents] }
  let gi := jsIndexOf gref contents
  match jsGet contents gi with
  | none => none
  | some r =>
    let g0 := RefStore.gestureAt s1 r
    let si := jsIndexOf sample g0.samples
    let g1 := { g0 with samples := spliceRemove g0.samples si }
    let s2 := { s1 with gestureHeap := s1.gestureHeap.set r g1 }
    match jsGet s2.models gi with
    | none => none
    | some m =>
      let m1 := SingleDTWCore.update m (Gesture.getCroppedData g1) s2.latestTimestamp
      let models1 := jsSet s2.models gi m1
      let g2 := { g1 with displayGesture := SingleDTWCore.prototype m1 }
      let s3 := { s2 with gestureHeap := s2.gestureHeap.set r g2, models := models1 }
      some (RefStore.markDirty { s3 with published := cloneRef } now)

/-- deleteIfGestureEmpty at the heap level: slice() allocates the clone,
the clone is spliced (mutating only the fresh object), the model array
is spliced in place, and this.gestures is swapped to the clone.  none
when reading this.gestures[this.curGestureIndex].samples would throw. -/
def RefStore.deleteIfGestureEmpty (s : RefStore) : Option RefStore :=
  let contents := RefStore.publishedContents s
  if 0 < contents.length then
    match jsGet contents s.curGestureIndex with
    | none => none
    | some r =>
      if (RefStore.gestureAt s r).samples.length = 0 then
        let cloneRef := s.arrHeap.length
        some { s with arrHeap := s.arrHeap ++ [spliceRemove contents s.curGestureIndex],
                      models := spliceRemove s.models s.curGestureIndex,
                      published := cloneRef }
      else some s
  else some s

/-- The catalog operations quantified over by the length invariant:
addGesture, deleteGesture, deleteIfGestureEmpty and hydration. -/
inductive CatalogOp
  | addGesture
  | deleteGesture (now : Int) (g : Gesture)
  | deleteIfGestureEmpty
  | hydrate (code : String) (json : JsonArg)

/-- One catalog operation; none when the source would throw. -/
def stepOp (s : Store) : CatalogOp → Option Store
  | .addGesture => some (Store.addGesture s)
  | .deleteGesture now g => some (Store.deleteGesture s now g)
  | .deleteIfGestureEmpty => Store.deleteIfGestureEmpty s
  | .hydrate code json => some (Store.loadBlocks s code json)

/-- Running a sequence of catalog operations. -/
def runOps (s : Store) : List CatalogOp → Option Store
  | [] => some s
  | op :: ops => (stepOp s op).bind (fun s1 => runOps s1 ops)

/-! Helper lemmas about the JavaScript array and map helpers. -/

theorem jsIndexOf_eq_neg_one_of_not_mem [DecidableEq α] {x : α} {l : List α}
    (h : x ∉ l) : jsIndexOf x l = -1 := by
  induction l with
  | nil => rfl
  | cons a as ih =>
    simp only [List.mem_cons, not_or] at h
    simp only [jsIndexOf]
    rw [if_neg (fun hax => h.1 hax.symm), ih h.2]
    rfl

theorem jsIndexOf_nonneg_lt [DecidableEq α] {x : α} {l : List α}
    (h : 0 ≤ jsIndexOf x l) : (jsIndexOf x l).toNat < l.length := by
  induction l with
  | nil => simp [jsIndexOf] at h
  | cons a as ih =>
    simp only [jsIndexOf] at h ⊢
    by_cases hax : a = x
    · simp [hax]
    · rw [if_neg hax] at h ⊢
      by_cases hr : jsIndexOf x as < 0
      · rw [if_pos hr] at h; omega
      · rw [if_neg hr] at h ⊢
        have := ih (by omega)
        simp only [List.length_cons]
        omega

theorem spliceRemove_length_of_lt {l : List α} {i : Int}
    (h0 : 0 ≤ i) (h1 : i.toNat < l.length) :
    (spliceRemove l i).length = l.length - 1 := by
  simp only [spliceRemove]
  rw [if_neg (by omega)]
  simp only [List.length_append, List.length_take, List.length_drop]
  omega

theorem jsGet_eq_some_bounds {l : List α} {i : Int} {a : α}
    (h : jsGet l i = some a) : 0 ≤ i ∧ i.toNat < l.length := by
  simp only [jsGet] at h
  by_cases hi : i < 0
  · rw [if_pos hi] at h; exact absurd h (by simp)
  · rw [if_neg hi] at h
    exact ⟨by omega, (List.get?_eq_some.mp h).1⟩

theorem jsFindIndex_nonneg_iff {p : α → Bool} {l : List α} :
    0 ≤ jsFindIndex p l ↔ ∃ x ∈ l, p x = true := by
  induction l with
  | nil => simp [jsFindIndex]
  | cons a as ih =>
    simp only [jsFindIndex]
    by_cases hpa : p a
    · simp [hpa]
    · rw [if_neg hpa]
      by_cases hr : jsFindIndex p as < 0
      · rw [if_pos hr]
        simp only [List.mem_cons]
        constructor
        · intro h; omega
        · rintro ⟨x, hx | hx, hpx⟩
          · exact absurd hpx (by simp [hx ▸ hpa])
          · exact absurd (ih.mpr ⟨x, hx, hpx⟩) (by omega)
      · rw [if_neg hr]
        have := ih.mpr
        simp only [List.mem_cons]
        constructor
        · intro _
          obtain ⟨x, hx, hpx⟩ := ih.mp (by omega)
          exact ⟨x, Or.inr hx, hpx⟩
        · intro _; omega

theorem mapLookup_mapErase_self (m : List (String × String)) (k : String) :
    mapLookup (mapErase m k) k = none := by
  induction m with
  | nil => rfl
  | cons p ps ih =>
    simp only [mapErase, mapLookup, List.filter] at ih ⊢
    cases hp : (p.1 == k) with
    | true => simp only [hp, Bool.not_true, List.filter_cons_of_neg, Bool.false_eq_true,
        not_false_eq_true]; exact ih
    | false => simp only [hp, Bool.not_false, List.filter_cons_of_pos, List.find?, hp]; exact ih

theorem mapLookup_mapSet_of_ne (m : List (String × String)) {k k2 : String}
    (v : String) (h : k ≠ k2) : mapLookup (mapSet m k2 v) k = mapLookup m k := by
  have hkv : ((k2, v).1 == k) = false := by
    simp only [beq_eq_false_iff_ne, ne_eq]
    exact fun hkk => h hkk.symm
  induction m with
  | nil =>
    simp only [mapSet, mapErase, List.filter, mapLookup, List.nil_append, List.find?, hkv]
  | cons p ps ih =>
    simp only [mapSet, mapErase, List.filter] at ih ⊢
    cases hp : (p.1 == k2) with
    | true =>
      have hpk : (p.1 == k) = false := by
        simp only [beq_iff_eq] at hp
        simp only [beq_eq_false_iff_ne, ne_eq]
        intro hk; exact h (hk.symm.trans hp)
      simp only [hp, Bool.not_true]
      rw [ih]
      simp only [mapLookup, List.find?, hpk]
    | false =>
      simp only [hp, Bool.not_false, List.cons_append]
      simp only [mapLookup, List.find?] at ih ⊢
      cases hpk : (p.1 == k) with
      | true => rfl
      | false => exact ih

theorem mapErase_of_lookup_none {m : List (String × String)} {k : String}
    (h : mapLookup m k = none) : mapErase m k = m := by
  induction m with
  | nil => rfl
  | cons p ps ih =>
    simp only [mapLookup, List.find?] at h
    cases hp : (p.1 == k) with
    | true => rw [hp] at h; exact absurd h (by simp)
    | false =>
      rw [hp] at h
      have h3 := ih (by simpa [mapLookup] using h)
      simp only [mapErase, List.filter, hp, Bool.not_false]
      simp only [mapErase] at h3
      rw [h3]

/-! C10: deleteGesture on a gesture that is not in the catalog. -/

/-- C10: calling deleteGesture with a gesture that is not present in the
catalog is a complete no-op: the whole store state - in particular the
gesture array, the matcher array, the hasBeenModified flag and the
pending flush timer - is unchanged. -/
theorem C10_deleteGesture_missing_noop (s : Store) (now : Int) (g : Gesture)
    (h : g ∉ s.gestures) : Store.deleteGesture s now g = s := by
  simp only [Store.deleteGesture]
  rw [jsIndexOf_eq_neg_one_of_not_mem h]
  rfl

/-- Witness for C10 at a concrete store and gesture. -/
theorem C10_deleteGesture_missing_noop_witness :
    Gesture.mk 5 "z" [] none ∉ (Store.addGesture (initStore "i")).gestures
    ∧ Store.deleteGesture (Store.addGesture (initStore "i")) 0 (Gesture.mk 5 "z" [] none)
        = Store.addGesture (initStore "i") :=
  ⟨by decide,
   C10_deleteGesture_missing_noop (Store.addGesture (initStore "i")) 0
     (Gesture.mk 5 "z" [] none) (by decide)⟩

/-! C4: addGesture id assignment and matcher seeding. -/

/-- C4 counterexample: two parts of the claim fail on the code.  First,
the newly constructed matcher is seeded with gestureID + 1, not with
the gesture's id: on an empty catalog the new gesture has id 1 but its
matcher is constructed with 2.  Second, with id = (max existing id) + 1
a retired id is reused: add two gestures (ids 1, 2), delete the gesture
with id 2, and the next addGesture assigns id 2 again. -/
theorem C4_addGesture_id_counterexample :
    ((Store.addGesture (initStore "i")).gestures.map Gesture.gestureID) = [1]
    ∧ ((Store.addGesture (initStore "i")).models.map SingleDTWCore.seedId) = [2]
    ∧ ([2] : List Nat) ≠ [1]
    ∧ ((Store.addGesture (Store.addGesture (initStore "i"))).gestures.map Gesture.gestureID)
        = [1, 2]
    ∧ ((Store.deleteGesture (Store.addGesture (Store.addGesture (initStore "i"))) 0
          (Gesture.mk 2 "" [] none)).gestures.map Gesture.gestureID) = [1]
    ∧ ((Store.addGesture (Store.deleteGesture (Store.addGesture (Store.addGesture (initStore "i"))) 0
          (Gesture.mk 2 "" [] none))).gestures.map Gesture.gestureID) = [1, 2] := by
  refine ⟨by decide, by decide, by decide, by decide, by decide, by decide⟩

/-- C4 (amended): addGesture assigns the new gesture an id equal to
(max existing id) + 1, or 1 if the catalog is empty - which can reuse a
retired id when the gesture holding the maximal id was deleted; it
appends the gesture and a newly constructed index-aligned matcher
seeded with (id + 1, name); the new gesture becomes current; on an
empty catalog the result has length 1, id 1 and current index 0.  The
id assignment itself lives in the Gesture constructor (motion.ts, not
in the analysed sources) and is modelled from the spec's formula. -/
theorem C4_addGesture_id_amended (s : Store) :
    (Store.addGesture s).gestures = s.gestures ++ [newGesture s.gestures]
    ∧ (newGesture s.gestures).gestureID = maxGestureId s.gestures + 1
    ∧ (Store.addGesture s).models
        = s.models ++ [SingleDTWCore.new ((newGesture s.gestures).gestureID + 1)
            (newGesture s.gestures).name]
    ∧ (Store.addGesture s).curGestureIndex = (s.gestures.length : Int)
    ∧ (Store.addGesture (initStore "i")).gestures.length = 1
    ∧ ((Store.addGesture (initStore "i")).gestures.map Gesture.gestureID) = [1]
    ∧ (Store.addGesture (initStore "i")).curGestureIndex = 0 := by
  refine ⟨rfl, rfl, rfl, ?_, by decide, by decide, by decide⟩
  simp only [Store.addGesture, List.length_append, List.length_cons, List.length_nil]
  push_cast
  ring

/-! C6: isMatch buffer-position-to-tick conversion and inclusive bounds. -/

/-- The concrete store of the C6 scenario: one recorded Match with
start 5 and end 10, nine buffered readings and tick counter 12, so that
buffer position i corresponds to absolute tick 4 + i. -/
def c6Store : Store :=
  { initStore "x" with
    recordedMatches := [Match.mk 5 10]
    latestTimestamp := 12
    readings := List.replicate 9 (MotionReading.mk 0 0 0) }

/-- C6: isMatch converts the buffer position to the absolute tick
latestTimestamp - (readings.length - 1 - readingIndex) and returns true
exactly when some recorded Match interval contains that tick, both
bounds inclusive; concretely, with Match start 5 end 10, the buffer
positions whose ticks are 5, 7 and 10 match while those with ticks 4
and 11 do not. -/
theorem C6_isMatch_inclusive_bounds :
    (∀ (s : Store) (i : Int),
      Store.isMatch s i = true
        ↔ ∃ m ∈ s.recordedMatches,
            m.startTime ≤ Store.tickAt s i ∧ Store.tickAt s i ≤ m.endTime)
    ∧ (∀ (s : Store) (i : Int),
        Store.tickAt s i = s.latestTimestamp - ((s.readings.length : Int) - 1 - i))
    ∧ (Store.tickAt c6Store 0 = 4 ∧ Store.isMatch c6Store 0 = false)
    ∧ (Store.tickAt c6Store 1 = 5 ∧ Store.isMatch c6Store 1 = true)
    ∧ (Store.tickAt c6Store 3 = 7 ∧ Store.isMatch c6Store 3 = true)
    ∧ (Store.tickAt c6Store 6 = 10 ∧ Store.isMatch c6Store 6 = true)
    ∧ (Store.tickAt c6Store 7 = 11 ∧ Store.isMatch c6Store 7 = false) := by
  refine ⟨?_, fun s i => rfl, by decide, by decide, by decide, by decide, by decide⟩
  intro s i
  simp only [Store.isMatch, decide_eq_true_eq]
  rw [jsFindIndex_nonneg_iff]
  constructor
  · rintro ⟨m, hm, hp⟩
    exact ⟨m, hm, of_decide_eq_true hp⟩
  · rintro ⟨m, hm, hp⟩
    exact ⟨m, hm, decide_eq_true hp⟩

/-! C9: hydration from an empty or missing serialized catalog. -/

/-- C9 counterexample: a json string that parses to an empty array of
gesture records ("[]") is truthy in JavaScript, so loadBlocks does not
take its early return; on a catalog holding one gesture it
wholesale-replaces both arrays with empty ones instead of being a
no-op. -/
theorem C9_hydrate_empty_counterexample :
    ((Store.addGesture (initStore "i")).loadBlocks "c" (JsonArg.records [])).gestures = []
    ∧ (Store.addGesture (initStore "i")).gestures ≠ []
    ∧ ((Store.addGesture (initStore "i")).loadBlocks "c" (JsonArg.records [])).models = []
    ∧ (Store.addGesture (initStore "i")).models ≠ [] := by
  refine ⟨by decide, by decide, by decide, by decide⟩

/-- C9 (amended): hydrating with an absent/empty json string, or one
parsing to null, is a no-op leaving the whole store - in particular the
gesture and matcher arrays - unchanged; any json parsing to an array of
records, including the empty array, wholesale-replaces the catalog with
the parsed records and rebuilds the entire matcher array from scratch,
priming each matcher (constructed with gestureID + 1 and the name) with
that gesture's cropped data and the current tick. -/
theorem C9_hydrate_empty_amended (s : Store) (code : String) :
    Store.loadBlocks s code JsonArg.absent = s
    ∧ Store.loadBlocks s code JsonArg.nullJson = s
    ∧ ∀ l : List Gesture,
        (Store.loadBlocks s code (JsonArg.records l)).gestures = l.map parseGesture
        ∧ (Store.loadBlocks s code (JsonArg.records l)).models
            = (l.map parseGesture).map (fun g =>
                SingleDTWCore.update (SingleDTWCore.new (g.gestureID + 1) g.name)
                  (Gesture.getCroppedData g) s.latestTimestamp) :=
  ⟨rfl, rfl, fun l => ⟨rfl, rfl⟩⟩

/-! C1: the matcher array and the gesture array always have equal length. -/

/-- markDirty never touches the gesture array. -/
theorem markDirty_gestures (s : Store) (now : Int) :
    (Store.markDirty s now).gestures = s.gestures := by
  simp only [Store.markDirty]
  split <;> rfl

/-- markDirty never touches the model array. -/
theorem markDirty_models (s : Store) (now : Int) :
    (Store.markDirty s now).models = s.models := by
  simp only [Store.markDirty]
  split <;> rfl

/-- The C1 invariant: index-aligned matcher and gesture arrays. -/
def lenInv (s : Store) : Prop := s.models.length = s.gestures.length

/-- Every catalog operation that does not throw preserves the length
invariant. -/
theorem stepOp_preserves_lenInv {s s1 : Store} {op : CatalogOp}
    (hinv : lenInv s) (h : stepOp s op = some s1) : lenInv s1 := by
  cases op with
  | addGesture =>
    simp only [stepOp, Option.some.injEq] at h
    subst h
    simp only [lenInv, Store.addGesture, List.length_append, List.length_cons,
      List.length_nil] at hinv ⊢
    omega
  | deleteGesture now g =>
    simp only [stepOp, Option.some.injEq] at h
    subst h
    simp only [Store.deleteGesture]
    by_cases hidx : 0 ≤ jsIndexOf g s.gestures
    · rw [if_pos hidx]
      have hb := jsIndexOf_nonneg_lt (x := g) (l := s.gestures) hidx
      simp only [lenInv, markDirty_gestures, markDirty_models]
      rw [spliceRemove_length_of_lt hidx hb,
        spliceRemove_length_of_lt hidx (by simp only [lenInv] at hinv; omega)]
      simp only [lenInv] at hinv
      omega
    · rw [if_neg hidx]
      exact hinv
  | deleteIfGestureEmpty =>
    simp only [stepOp, Store.deleteIfGestureEmpty] at h
    by_cases hlen : 0 < s.gestures.length
    · rw [if_pos hlen] at h
      cases hg : jsGet s.gestures s.curGestureIndex with
      | none => rw [hg] at h; exact absurd h (by simp)
      | some g =>
        rw [hg] at h
        dsimp only at h
        obtain ⟨hc0, hc1⟩ := jsGet_eq_some_bounds hg
        by_cases hs : g.samples.length = 0
        · rw [if_pos hs, Option.some.injEq] at h
          subst h
          simp only [lenInv]
          rw [spliceRemove_length_of_lt hc0 hc1,
            spliceRemove_length_of_lt hc0 (by simp only [lenInv] at hinv; omega)]
          simp only [lenInv] at hinv
          omega
        · rw [if_neg hs, Option.some.injEq] at h
          subst h
          exact hinv
    · rw [if_neg hlen, Option.some.injEq] at h
      subst h
      exact hinv
  | hydrate code json =>
    simp only [stepOp, Option.some.injEq] at h
    subst h
    cases json with
    | absent => exact hinv
    | nullJson => exact hinv
    | records l => simp [lenInv, Store.loadBlocks]

/-- The invariant is preserved along any run. -/
theorem runOps_preserves_lenInv : ∀ (ops : List CatalogOp) (s s1 : Store),
    lenInv s → runOps s ops = some s1 → lenInv s1
  | [], s, s1, hinv, h => by
    simp only [runOps, Option.some.injEq] at h
    exact h ▸ hinv
  | op :: ops, s, s1, hinv, h => by
    simp only [runOps] at h
    cases hst : stepOp s op with
    | none => rw [hst] at h; exact absurd h (by simp)
    | some s2 =>
      rw [hst] at h
      simp only [Option.some_bind] at h
      exact runOps_preserves_lenInv ops s2 s1 (stepOp_preserves_lenInv hinv hst) h

/-- C1: for every sequence of addGesture, deleteGesture,
deleteIfGestureEmpty and hydrate (loadBlocks) operations starting from
the empty catalog, the model array has the same length as the gesture
array after every operation (after every prefix of the sequence that
does not throw; a run of each prefix is itself a run). -/
theorem C1_matcher_gesture_length_invariant (id0 : String) (ops : List CatalogOp)
    (s1 : Store) (h : runOps (initStore id0) ops = some s1) :
    s1.models.length = s1.gestures.length :=
  runOps_preserves_lenInv ops (initStore id0) s1 rfl h

/-- The operation sequence of the C1 witness: it exercises all four
operation kinds. -/
def c1Ops : List CatalogOp :=
  [CatalogOp.addGesture, CatalogOp.deleteIfGestureEmpty, CatalogOp.addGesture,
   CatalogOp.addGesture, CatalogOp.deleteGesture 5 (Gesture.mk 2 "" [] none),
   CatalogOp.hydrate "c" (JsonArg.records [Gesture.mk 7 "n" [] none])]

/-- Witness for C1 on a concrete run of all four operation kinds. -/
theorem C1_matcher_gesture_length_invariant_witness :
    runOps (initStore "i") c1Ops = some ((runOps (initStore "i") c1Ops).getD (initStore "i"))
    ∧ ((runOps (initStore "i") c1Ops).getD (initStore "i")).models.length
        = ((runOps (initStore "i") c1Ops).getD (initStore "i")).gestures.length :=
  ⟨by decide, C1_matcher_gesture_length_invariant "i" c1Ops _ (by decide)⟩

/-! C3: markDirty and the debounced flush. -/

/-- A sequence of markDirty calls at the given times. -/
def markDirtyMany (s : Store) : List Int → Store
  | [] => s
  | t :: ts => markDirtyMany (Store.markDirty s t) ts

/-- markDirty on an already-dirty store does nothing at all: the guard
if (!this.hasBeenModified) keeps it from invoking the debounced
saveBlocks, so the pending timer is not touched. -/
theorem markDirty_of_dirty {s : Store} (now : Int)
    (h : s.hasBeenModified = true) : Store.markDirty s now = s := by
  simp [Store.markDirty, h]

/-- Any number of further markDirty calls on a dirty store do nothing. -/
theorem markDirtyMany_of_dirty : ∀ (ts : List Int) {s : Store},
    s.hasBeenModified = true → markDirtyMany s ts = s
  | [], _, _ => rfl
  | t :: ts, s, h => by
    simp only [markDirtyMany, markDirty_of_dirty t h]
    exact markDirtyMany_of_dirty ts h

/-- C3 counterexample: after a first markDirty at time 0 and a second at
time 1000 (before the 2000ms timer fires), the pending flush deadline
is still 2000 - the first call's timer - and not 3000, so the second
call did not reset the timer and the last call's timer did not
survive. -/
theorem C3_markDirty_debounce_counterexample :
    ((Store.markDirty (Store.markDirty (initStore "i") 0) 1000).timer = some 2000)
    ∧ ¬ ((Store.markDirty (Store.markDirty (initStore "i") 0) 1000).timer
          = some (1000 + 2000)) := by
  refine ⟨by decide, by decide⟩

/-- C3 (amended): markDirty sets the dirty flag on its first call after a
flush and schedules a flush 2000ms later; every subsequent markDirty
call before the timer fires is a complete no-op, so the FIRST call's
timer survives (not the last call's); N markDirty calls within the
delay window still produce exactly one flush - no extwritecode request
is emitted before the timer fires, and when it fires exactly one
extwritecode request is emitted, the dirty flag clears and the timer
slot empties. -/
theorem C3_markDirty_debounce_amended (s : Store) (now : Int) (ts : List Int)
    (fresh : String) (h : s.hasBeenModified = false) :
    (markDirtyMany (Store.markDirty s now) ts).hasBeenModified = true
    ∧ (markDirtyMany (Store.markDirty s now) ts).timer = some (now + 2000)
    ∧ (markDirtyMany (Store.markDirty s now) ts).outbox = s.outbox
    ∧ ((markDirtyMany (Store.markDirty s now) ts).fireTimer fresh).outbox
        = s.outbox ++ ["extwritecode"]
    ∧ ((markDirtyMany (Store.markDirty s now) ts).fireTimer fresh).hasBeenModified = false
    ∧ ((markDirtyMany (Store.markDirty s now) ts).fireTimer fresh).timer = none := by
  have h1 : Store.markDirty s now
      = { s with hasBeenModified := true, timer := some (now + 2000) } := by
    simp [Store.markDirty, h]
  have h2 : markDirtyMany (Store.markDirty s now) ts = Store.markDirty s now := by
    rw [h1]
    exact markDirtyMany_of_dirty ts rfl
  rw [h2, h1]
  simp [Store.fireTimer, Store.saveBlocksNow, sendRequest]

/-- Witness for C3 on a clean store with two extra calls in the window. -/
theorem C3_markDirty_debounce_amended_witness :
    (initStore "i").hasBeenModified = false
    ∧ ((markDirtyMany (Store.markDirty (initStore "i") 0) [500, 1000]).fireTimer "f").outbox
        = (initStore "i").outbox ++ ["extwritecode"] :=
  ⟨by decide,
   (C3_markDirty_debounce_amended (initStore "i") 0 [500, 1000] "f" (by decide)).2.2.2.1⟩

/-! C8: each request's response is consumed at most once. -/

/-- loadBlocks never touches the pending id-to-action map. -/
theorem loadBlocks_idToType (s : Store) (code : String) (json : JsonArg) :
    (Store.loadBlocks s code json).idToType = s.idToType := by
  cases json <;> rfl

/-- A response whose correlation id has no pending entry changes nothing:
the lookup yields undefined, deleting an absent key is a no-op, and the
dispatch switch falls through its default case. -/
theorem receiveMessage_unknown_id (s : Store) (id code : String) (json : JsonArg)
    (f1 f2 : String) (h : mapLookup s.idToType id = none) :
    Store.receiveMessage s (InMsg.response id code json) f1 f2 = s := by
  simp only [Store.receiveMessage]
  rw [h]
  dsimp only
  rw [mapErase_of_lookup_none h]

/-- Processing a response removes its pending entry, and the fresh ids of
any requests the dispatch sends differ from the consumed id. -/
theorem receiveMessage_consumes_id (s : Store) (id code : String) (json : JsonArg)
    {f1 f2 : String} (h1 : f1 ≠ id) (h2 : f2 ≠ id) :
    mapLookup (Store.receiveMessage s (InMsg.response id code json) f1 f2).idToType id
      = none := by
  simp only [Store.receiveMessage]
  cases hact : mapLookup s.idToType id with
  | none =>
    dsimp only
    exact mapLookup_mapErase_self s.idToType id
  | some a =>
    dsimp only
    by_cases ha1 : a = "extinit"
    · rw [if_pos ha1]
      simp only [sendRequest]
      rw [mapLookup_mapSet_of_ne _ _ (Ne.symm h2), mapLookup_mapSet_of_ne _ _ (Ne.symm h1)]
      exact mapLookup_mapErase_self s.idToType id
    · rw [if_neg ha1]
      by_cases ha2 : a = "extreadcode"
      · rw [if_pos ha2, loadBlocks_idToType]
        exact mapLookup_mapErase_self s.idToType id
      · rw [if_neg ha2]
        exact mapLookup_mapErase_self s.idToType id

/-- C8: a response to a previously sent request is dispatched by looking
up and removing the pending id-to-action entry, so a response is
consumed at most once.  A response whose id was never recorded triggers
no dispatch action and leaves the store unchanged; after any response
is processed its id is no longer pending (the dispatch's own fresh
request ids f1, f2 being distinct from it), so a duplicate response
carrying the same correlation id triggers no dispatch action and is
silently ignored. -/
theorem C8_response_consumed_at_most_once (s : Store) (id code code2 : String)
    (json json2 : JsonArg) (f1 f2 f3 f4 : String) (h1 : f1 ≠ id) (h2 : f2 ≠ id) :
    (mapLookup s.idToType id = none →
      Store.dispatchedAction s (InMsg.response id code json) = none
      ∧ Store.receiveMessage s (InMsg.response id code json) f1 f2 = s)
    ∧ mapLookup (Store.receiveMessage s (InMsg.response id code json) f1 f2).idToType id
        = none
    ∧ Store.dispatchedAction (Store.receiveMessage s (InMsg.response id code json) f1 f2)
        (InMsg.response id code2 json2) = none
    ∧ Store.receiveMessage (Store.receiveMessage s (InMsg.response id code json) f1 f2)
        (InMsg.response id code2 json2) f3 f4
        = Store.receiveMessage s (InMsg.response id code json) f1 f2 := by
  have hcons := receiveMessage_consumes_id s id code json h1 h2
  refine ⟨fun hnone => ⟨by simp [Store.dispatchedAction, hnone],
      receiveMessage_unknown_id s id code json f1 f2 hnone⟩,
    hcons, by simp [Store.dispatchedAction, hcons],
    receiveMessage_unknown_id _ id code2 json2 f3 f4 hcons⟩

/-- Witness for C8: a duplicate response with an unknown-then-consumed id
on the concrete initial store. -/
theorem C8_response_consumed_at_most_once_witness :
    ("a" : String) ≠ "zzz" ∧ ("b" : String) ≠ "zzz"
    ∧ Store.receiveMessage
        (Store.receiveMessage (initStore "i") (InMsg.response "zzz" "" JsonArg.absent) "a" "b")
        (InMsg.response "zzz" "" JsonArg.absent) "c" "d"
      = Store.receiveMessage (initStore "i") (InMsg.response "zzz" "" JsonArg.absent) "a" "b" :=
  ⟨by decide, by decide,
   (C8_response_consumed_at_most_once (initStore "i") "zzz" "" "" JsonArg.absent JsonArg.absent
     "a" "b" "c" "d" (by decide) (by decide)).2.2.2⟩

/-! C2: which catalog mutations are copy-on-write. -/

/-- RefStore.markDirty never touches the array heap. -/
theorem refMarkDirty_arrHeap (s : RefStore) (now : Int) :
    (RefStore.markDirty s now).arrHeap = s.arrHeap := by
  simp only [RefStore.markDirty]
  split <;> rfl

/-- RefStore.markDirty never touches the published reference. -/
theorem refMarkDirty_published (s : RefStore) (now : Int) :
    (RefStore.markDirty s now).published = s.published := by
  simp only [RefStore.markDirty]
  split <;> rfl

/-- The heap state of an empty catalog: one (empty) published array
object at reference 0, as after the constructor. -/
def refEmpty : RefStore :=
  { arrHeap := [[]]
    gestureHeap := []
    published := 0
    models := []
    curGestureIndex := 0
    latestTimestamp := 0
    hasBeenModified := false
    timer := none }

/-- C2 counterexample: addGesture is not copy-on-write.  On the empty
catalog it allocates no new array object, keeps this.gestures pointing
at the same array object, and mutates that published object's contents
in place (this.gestures.push), so the gesture array object that was
published before the operation began is mutated. -/
theorem C2_copy_on_write_counterexample :
    (RefStore.addGesture refEmpty).published = refEmpty.published
    ∧ (RefStore.addGesture refEmpty).arrHeap.length = refEmpty.arrHeap.length
    ∧ (RefStore.addGesture refEmpty).arrHeap.getD refEmpty.published []
        ≠ refEmpty.arrHeap.getD refEmpty.published [] := by
  refine ⟨by decide, by decide, by decide⟩

/-- C2 (amended): addSample, deleteSample and deleteIfGestureEmpty are
copy-on-write - each allocates exactly one fresh array object (the
slice), leaves the contents of every previously existing array object
unchanged, and publishes by swapping this.gestures to the fresh
reference (deleteIfGestureEmpty only in its effective case; its no-op
cases change nothing).  addGesture and deleteGesture are not: they
allocate no array object, keep the published reference, and mutate the
published array object's contents in place (push, and splice when the
gesture is found). -/
theorem C2_copy_on_write_amended (s : RefStore) :
    ((RefStore.addGesture s).published = s.published
      ∧ (RefStore.addGesture s).arrHeap
          = s.arrHeap.set s.published
              (RefStore.publishedContents s ++ [s.gestureHeap.length]))
    ∧ (∀ (now : Int) (gref : Nat),
        (RefStore.deleteGesture s now gref).published = s.published
        ∧ (RefStore.deleteGesture s now gref).arrHeap
            = if 0 ≤ jsIndexOf gref (RefStore.publishedContents s) then
                s.arrHeap.set s.published
                  (spliceRemove (RefStore.publishedContents s)
                    (jsIndexOf gref (RefStore.publishedContents s)))
              else s.arrHeap)
    ∧ (∀ (now : Int) (gref : Nat) (ns : GestureExampleData) (s1 : RefStore),
        RefStore.addSample s now gref ns = some s1 →
          s1.arrHeap = s.arrHeap ++ [RefStore.publishedContents s]
          ∧ s1.published = s.arrHeap.length)
    ∧ (∀ (now : Int) (gref : Nat) (sm : GestureExampleData) (s1 : RefStore),
        RefStore.deleteSample s now gref sm = some s1 →
          s1.arrHeap = s.arrHeap ++ [RefStore.publishedContents s]
          ∧ s1.published = s.arrHeap.length)
    ∧ (∀ s1 : RefStore, RefStore.deleteIfGestureEmpty s = some s1 →
        s1 = s
        ∨ (s1.arrHeap
              = s.arrHeap ++ [spliceRemove (RefStore.publishedContents s) s.curGestureIndex]
            ∧ s1.published = s.arrHeap.length)) := by
  refine ⟨⟨rfl, rfl⟩, ?_, ?_, ?_, ?_⟩
  · intro now gref
    simp only [RefStore.deleteGesture]
    by_cases h : 0 ≤ jsIndexOf gref (RefStore.publishedContents s)
    · rw [if_pos h, if_pos h]
      exact ⟨refMarkDirty_published _ now, refMarkDirty_arrHeap _ now⟩
    · rw [if_neg h, if_neg h]
      exact ⟨rfl, rfl⟩
  · intro now gref ns s1 h
    simp only [RefStore.addSample] at h
    cases hg : jsGet (RefStore.publishedContents s)
        (jsIndexOf gref (RefStore.publishedContents s)) with
    | none => rw [hg] at h; exact absurd h (by simp)
    | some r =>
      rw [hg] at h
      dsimp only at h
      cases hm : jsGet s.models s.curGestureIndex with
      | none => rw [hm] at h; exact absurd h (by simp)
      | some m =>
        rw [hm] at h
        dsimp only at h
        rw [Option.some.injEq] at h
        subst h
        exact ⟨refMarkDirty_arrHeap _ now, refMarkDirty_published _ now⟩
  · intro now gref sm s1 h
    simp only [RefStore.deleteSample] at h
    cases hg : jsGet (RefStore.publishedContents s)
        (jsIndexOf gref (RefStore.publishedContents s)) with
    | none => rw [hg] at h; exact absurd h (by simp)
    | some r =>
      rw [hg] at h
      dsimp only at h
      cases hm : jsGet s.models (jsIndexOf gref (RefStore.publishedContents s)) with
      | none => rw [hm] at h; exact absurd h (by simp)
      | some m =>
        rw [hm] at h
        dsimp only at h
        rw [Option.some.injEq] at h
        subst h
        exact ⟨refMarkDirty_arrHeap _ now, refMarkDirty_published _ now⟩
  · intro s1 h
    simp only [RefStore.deleteIfGestureEmpty] at h
    by_cases hlen : 0 < (RefStore.publishedContents s).length
    · rw [if_pos hlen] at h
      cases hg : jsGet (RefStore.publishedContents s) s.curGestureIndex with
      | none => rw [hg] at h; exact absurd h (by simp)
      | some r =>
        rw [hg] at h
        dsimp only at h
        by_cases hs : (RefStore.gestureAt s r).samples.length = 0
        · rw [if_pos hs, Option.some.injEq] at h
          subst h
          exact Or.inr ⟨rfl, rfl⟩
        · rw [if_neg hs, Option.some.injEq] at h
          subst h
          exact Or.inl rfl
    · rw [if_neg hlen, Option.some.injEq] at h
      subst h
      exact Or.inl rfl

/-- The heap state of a one-gesture catalog used by the C2 witness. -/
def refOne : RefStore :=
  { arrHeap := [[0]]
    gestureHeap := [Gesture.mk 1 "" [] none]
    published := 0
    models := [SingleDTWCore.new 2 ""]
    curGestureIndex := 0
    latestTimestamp := 0
    hasBeenModified := false
    timer := none }

/-- Witness for C2: addSample on the concrete one-gesture heap allocates
the clone and swaps the published reference to it. -/
theorem C2_copy_on_write_witness :
    RefStore.addSample refOne 5 0 (GestureExampleData.mk [MotionReading.mk 1 2 3])
      = some ((RefStore.addSample refOne 5 0
          (GestureExampleData.mk [MotionReading.mk 1 2 3])).getD refOne)
    ∧ ((RefStore.addSample refOne 5 0
          (GestureExampleData.mk [MotionReading.mk 1 2 3])).getD refOne).arrHeap
        = refOne.arrHeap ++ [RefStore.publishedContents refOne]
    ∧ ((RefStore.addSample refOne 5 0
          (GestureExampleData.mk [MotionReading.mk 1 2 3])).getD refOne).published
        = refOne.arrHeap.length := by
  refine ⟨by decide, ?_, ?_⟩
  · exact ((C2_copy_on_write_amended refOne).2.2.1 5 0
      (GestureExampleData.mk [MotionReading.mk 1 2 3]) _ (by decide)).1
  · exact ((C2_copy_on_write_amended refOne).2.2.1 5 0
      (GestureExampleData.mk [MotionReading.mk 1 2 3]) _ (by decide)).2

/-! C5: the history buffer is a sliding window of the 30 most recent
conditioned readings. -/

/-- The projections of one serialFrame step, in sliding-window form:
when the buffer respects the bound before the step, push-then-shift
equals dropping (length + 1) - 30 elements from the front of the
extended buffer. -/
theorem serialFrame_fields (s : Store) (raw : MotionReading) (o : Option Match)
    (hlen : s.readings.length ≤ readingHistoryLimit) :
    (Store.serialFrame s raw o).readings
        = (s.readings ++ [MotionReading.mk (lowPass s.prevX raw.accelX)
             (lowPass s.prevY raw.accelY) (lowPass s.prevZ raw.accelZ)]).drop
            ((s.readings.length + 1) - readingHistoryLimit)
    ∧ (Store.serialFrame s raw o).latestTimestamp = s.latestTimestamp + 1
    ∧ (Store.serialFrame s raw o).prevX = lowPass s.prevX raw.accelX
    ∧ (Store.serialFrame s raw o).prevY = lowPass s.prevY raw.accelY
    ∧ (Store.serialFrame s raw o).prevZ = lowPass s.prevZ raw.accelZ
    ∧ (Store.serialFrame s raw o).readings.length ≤ readingHistoryLimit := by
  have hread : (Store.serialFrame s raw o).readings
      = (s.readings ++ [MotionReading.mk (lowPass s.prevX raw.accelX)
           (lowPass s.prevY raw.accelY) (lowPass s.prevZ raw.accelZ)]).drop
          ((s.readings.length + 1) - readingHistoryLimit) := by
    simp only [Store.serialFrame]
    by_cases h : readingHistoryLimit
        < (s.readings ++ [MotionReading.mk (lowPass s.prevX raw.accelX)
            (lowPass s.prevY raw.accelY) (lowPass s.prevZ raw.accelZ)]).length
    · rw [if_pos h]
      simp only [List.length_append, List.length_cons, List.length_nil] at h
      congr 1
      omega
    · rw [if_neg h]
      simp only [List.length_append, List.length_cons, List.length_nil] at h
      rw [show s.readings.length + 1 - readingHistoryLimit = 0 from by omega,
        List.drop_zero]
  refine ⟨hread, rfl, rfl, rfl, rfl, ?_⟩
  rw [hread]
  simp only [List.length_drop, List.length_append, List.length_cons, List.length_nil]
  omega

/-- conditionAll yields one conditioned reading per raw frame. -/
theorem conditionAll_length : ∀ (rs : List MotionReading) (px py pz : ℚ),
    (conditionAll px py pz rs).length = rs.length
  | [], _, _, _ => rfl
  | r :: rs, px, py, pz => by
    simp only [conditionAll, List.length_cons]
    rw [conditionAll_length rs]

/-- The feed loop in closed form: starting from a buffer within the
bound, the buffer after feeding a frame sequence is the conditioned
extension of the initial buffer with everything but the last 30
entries dropped, and the tick counter advances by exactly one per
frame. -/
theorem feedAll_spec : ∀ (fs : List (MotionReading × Option Match)) (s : Store),
    s.readings.length ≤ readingHistoryLimit →
    (Store.feedAll s fs).readings
        = (s.readings ++ conditionAll s.prevX s.prevY s.prevZ (fs.map Prod.fst)).drop
            ((s.readings.length + fs.length) - readingHistoryLimit)
    ∧ (Store.feedAll s fs).latestTimestamp = s.latestTimestamp + fs.length
  | [], s, hlen => by
    simp only [Store.feedAll, List.map_nil, conditionAll, List.append_nil, List.length_nil,
      Nat.add_zero]
    rw [Nat.sub_eq_zero_of_le hlen, List.drop_zero]
    simp
  | f :: fs, s, hlen => by
    simp only [Store.feedAll, List.map_cons, List.length_cons]
    obtain ⟨hr, hts, hpx, hpy, hpz, hlen1⟩ := serialFrame_fields s f.1 f.2 hlen
    obtain ⟨ihr, ihts⟩ := feedAll_spec fs (Store.serialFrame s f.1 f.2) hlen1
    have hlen1eq : (Store.serialFrame s f.1 f.2).readings.length
        = (s.readings.length + 1) - ((s.readings.length + 1) - readingHistoryLimit) := by
      rw [hr]
      simp only [List.length_drop, List.length_append, List.length_cons, List.length_nil]
    constructor
    · rw [ihr, hr, hpx, hpy, hpz]
      rw [← List.drop_append_of_le_length (by
        simp only [List.length_drop, List.length_append, List.length_cons, List.length_nil]
        omega)]
      rw [List.drop_drop, conditionAll]
      rw [List.append_assoc]
      simp only [List.singleton_append]
      congr 1
      simp only [List.length_drop, List.length_append, List.length_cons, List.length_nil]
      omega
    · rw [ihts, hts]
      push_cast
      ring

/-- C5: starting from the freshly constructed store, the buffer length
never exceeds 30 (after any frame sequence, hence after every prefix),
after feeding K frames the buffer holds exactly the last
min(K, 30) entries of the conditioned reading sequence - for K greater
than 30, the most recent 30 readings in chronological order - and the
tick counter equals the number of frames fed; in particular feeding any
35 frames with the tick counter starting at 0 leaves the buffer holding
conditioned readings 5 to 34 in order and the tick counter equal
to 35. -/
theorem C5_history_buffer_bound :
    (∀ (id0 : String) (fs : List (MotionReading × Option Match)),
      ((initStore id0).feedAll fs).readings
          = (conditionAll 0 0 0 (fs.map Prod.fst)).drop (fs.length - readingHistoryLimit)
      ∧ ((initStore id0).feedAll fs).latestTimestamp = fs.length
      ∧ ((initStore id0).feedAll fs).readings.length ≤ readingHistoryLimit)
    ∧ (∀ (id0 : String) (fs : List (MotionReading × Option Match)),
        fs.length = 35 →
        ((initStore id0).feedAll fs).readings
            = (conditionAll 0 0 0 (fs.map Prod.fst)).drop 5
        ∧ ((initStore id0).feedAll fs).latestTimestamp = 35
        ∧ ((initStore id0).feedAll fs).readings.length = 30) := by
  have hmain : ∀ (id0 : String) (fs : List (MotionReading × Option Match)),
      ((initStore id0).feedAll fs).readings
          = (conditionAll 0 0 0 (fs.map Prod.fst)).drop (fs.length - readingHistoryLimit)
      ∧ ((initStore id0).feedAll fs).latestTimestamp = fs.length := by
    intro id0 fs
    have h := feedAll_spec fs (initStore id0) (by simp [initStore, sendRequest])
    simpa [initStore, sendRequest] using h
  have hlen : ∀ (id0 : String) (fs : List (MotionReading × Option Match)),
      ((initStore id0).feedAll fs).readings.length
        = fs.length - (fs.length - readingHistoryLimit) := by
    intro id0 fs
    rw [(hmain id0 fs).1]
    simp only [List.length_drop]
    rw [conditionAll_length]
    simp
  refine ⟨fun id0 fs => ⟨(hmain id0 fs).1, (hmain id0 fs).2, ?_⟩, fun id0 fs h35 => ?_⟩
  · rw [hlen id0 fs]
    omega
  · refine ⟨?_, ?_, ?_⟩
    · rw [(hmain id0 fs).1, h35]
      norm_num [readingHistoryLimit]
    · rw [(hmain id0 fs).2, h35]
      norm_num
    · rw [hlen id0 fs, h35]
      norm_num [readingHistoryLimit]

/-- The concrete 35-frame sequence of the C5 witness. -/
def c5Frames : List (MotionReading × Option Match) :=
  List.replicate 35 (MotionReading.mk 1 0 0, none)

/-- Witness for C5 at a concrete 35-frame sequence. -/
theorem C5_history_buffer_bound_witness :
    c5Frames.length = 35
    ∧ ((initStore "i").feedAll c5Frames).latestTimestamp = 35
    ∧ ((initStore "i").feedAll c5Frames).readings
        = (conditionAll 0 0 0 (c5Frames.map Prod.fst)).drop 5 :=
  ⟨by decide,
   (C5_history_buffer_bound.2 "i" c5Frames (by decide)).2.1,
   (C5_history_buffer_bound.2 "i" c5Frames (by decide)).1⟩

/-! C7: addSample front-inserts and updates the currently selected
gesture's matcher. -/

/-- First concrete sample of the C7 scenario. -/
def sampleA : GestureExampleData := GestureExampleData.mk [MotionReading.mk 1 1 1]

/-- Second concrete sample of the C7 scenario. -/
def sampleB : GestureExampleData := GestureExampleData.mk [MotionReading.mk 2 2 2]

/-- The C7 scenario run: add a gesture, add sample A, then add sample B
to the (updated) gesture, and read off the final sample list. -/
def c7chain : Option (List GestureExampleData) := do
  let s0 := Store.addGesture (initStore "i")
  let g ← s0.gestures.head?
  let s1 ← Store.addSample s0 7 g sampleA
  let g1 ← s1.gestures.head?
  let s2 ← Store.addSample s1 8 g1 sampleB
  let g2 ← s2.gestures.head?
  pure g2.samples

/-- C7: when the edited gesture is present (found at indexOf g) and the
currently selected index holds a matcher m, addSample succeeds and
produces exactly: the edited gesture with the new sample inserted at
the FRONT of its sample list, the matcher at the currently selected
index (not necessarily the edited gesture's index) updated with the
edited gesture's cropped training data and the current tick, the edited
gesture's display prototype recomputed from that updated matcher, the
new catalog published, and the store marked dirty; and concretely
adding A then B to a fresh gesture yields the sample list B, A. -/
theorem C7_addSample_front_insert (s : Store) (now : Int) (g : Gesture)
    (sample : GestureExampleData) (g0 : Gesture) (m : SingleDTWCore)
    (h1 : jsGet s.gestures (jsIndexOf g s.gestures) = some g0)
    (h2 : jsGet s.models s.curGestureIndex = some m) :
    (Store.addSample s now g sample
      = some (Store.markDirty
          { s with
            gestures :=
              jsSet (jsSet s.gestures (jsIndexOf g s.gestures)
                  { g0 with samples := sample :: g0.samples })
                (jsIndexOf g s.gestures)
                { gestureID := g0.gestureID, name := g0.name,
                  samples := sample :: g0.samples,
                  displayGesture := SingleDTWCore.prototype
                    (SingleDTWCore.update m
                      (Gesture.getCroppedData { g0 with samples := sample :: g0.samples })
                      s.latestTimestamp) }
            models :=
              jsSet s.models s.curGestureIndex
                (SingleDTWCore.update m
                  (Gesture.getCroppedData { g0 with samples := sample :: g0.samples })
                  s.latestTimestamp) } now))
    ∧ c7chain = some [sampleB, sampleA] := by
  constructor
  · simp only [Store.addSample]
    rw [h1]
    dsimp only
    rw [h2]
  · decide

/-- The concrete store of the C7 witness: one fresh gesture. -/
def c7Store : Store := Store.addGesture (initStore "i")

/-- Witness for C7 at the concrete one-gesture store. -/
theorem C7_addSample_front_insert_witness :
    (Store.addSample c7Store 7 (Gesture.mk 1 "" [] none) sampleA).isSome = true := by
  rw [(C7_addSample_front_insert c7Store 7 (Gesture.mk 1 "" [] none) sampleA
    (Gesture.mk 1 "" [] none) (SingleDTWCore.new 2 "") (by decide) (by decide)).1]
  rfl

end PxtGestures
